import Mathlib

/-!
# Verification of the Prompt-Builder core

Shallow embedding of the prompt-assembly core of the repository
(`gemini_prompt_builder_app.py` and `ollama_integration.py`) together with
theorems settling the specification claims.

Conventions of the embedding:
* Python dicts with string keys become association lists
  `List (String × _)` in source order; `d[k]` (which can raise `KeyError`)
  becomes `dictGet` returning `Except String _`; `d.get(k, fallback)`
  becomes a `match` on `List.lookup`.
* Python strings are `String`; `str.strip()` is modelled by `pyStrip`
  over the ASCII whitespace characters.
* The float literals carried (but never computed with) by the lens and
  payload records are kept as their display text.
* The network and the random source are passed in explicitly: the server
  is a function from the request payload to an abstract outcome, and
  `random.choice(xs)` is modelled by `listChoice xs i` for an arbitrary
  index `i` supplied by the caller.
-/

/-- ASCII whitespace as stripped by Python `str.strip()` / matched by `\s`. -/
def isPySpace (c : Char) : Bool :=
  c = ' ' ∨ c = '\t' ∨ c = '\n' ∨ c = '\r' ∨ c = '\x0b' ∨ c = '\x0c'

/-- Python `str.strip()`: drop leading and trailing whitespace. -/
def pyStrip (s : String) : String :=
  String.mk (((s.data.dropWhile isPySpace).reverse.dropWhile isPySpace).reverse)

/-- Python `str.rstrip('.')` as used on the mood sentence. -/
def pyRstripDot (s : String) : String :=
  String.mk ((s.data.reverse.dropWhile (fun c => c = '.')).reverse)

/-- Python dict indexing `d[k]`: raises `KeyError` when the key is absent. -/
def dictGet (d : List (String × String)) (k : String) : Except String String :=
  match List.lookup k d with
  | some v => Except.ok v
  | none => Except.error ("KeyError: " ++ k)

/-- Model of `random.choice xs` via an externally supplied index reduced
modulo the list length, so every element is reachable. -/
def listChoice (xs : List String) (i : Nat) : String :=
  xs.getD (i % xs.length) ""

/-- Embedding of `sanitize_text`: remove the characters `"`, `;`, `<`, `>`
(`re.sub` over the class), take the first 500 characters, strip. -/
def sanitize_text (text : String) : String :=
  let clean := (text.data.filter (fun c => ¬ (c = '"' ∨ c = ';' ∨ c = '<' ∨ c = '>')))
  pyStrip (String.mk (clean.take 500))

/-- Embedding of `validate_input`: Python `bool(text and len(text.strip()) >= min_length)`. -/
def validate_input (text : String) (min_length : Nat := 3) : Bool :=
  text ≠ "" ∧ (pyStrip text).length ≥ min_length

/-- The punctuation class `[.,!?;:]` of `grammar_cleanup`. -/
def isPunct (c : Char) : Bool :=
  c = '.' ∨ c = ',' ∨ c = '!' ∨ c = '?' ∨ c = ';' ∨ c = ':'

def isAsciiLetter (c : Char) : Bool :=
  ('A' ≤ c ∧ c ≤ 'Z') ∨ ('a' ≤ c ∧ c ≤ 'z')

/-- Helper of `squeezeWS`: `inRun` records that the current character
continues a whitespace run of length at least two, whose surviving last
character must be emitted as a plain space. -/
def squeezeWSAux : Bool → List Char → List Char
  | _, [] => []
  | inRun, c :: rest =>
    if isPySpace c then
      match rest with
      | c2 :: _ =>
        if isPySpace c2 then squeezeWSAux true rest
        else (if inRun then ' ' else c) :: squeezeWSAux false rest
      | [] => [if inRun then ' ' else c]
    else
      c :: squeezeWSAux false rest

/-- First pass of `grammar_cleanup`: `re.sub(r'\s\x7b2,\x7d', ' ', text)` —
every maximal run of two or more whitespace characters becomes one space
(a lone whitespace character is kept as it is). -/
def squeezeWS (l : List Char) : List Char :=
  squeezeWSAux false l

/-- Helper of `dropWSBeforePunct`, processing from the right: the flag
means the processed suffix originally began with whitespace-then-punctuation
(so pending whitespace is deleted). -/
def dropWSBeforePunctAux : List Char → List Char × Bool
  | [] => ([], false)
  | c :: rest =>
    let step := dropWSBeforePunctAux rest
    if isPunct c then (c :: step.1, true)
    else if isPySpace c then
      (if step.2 then step.1 else c :: step.1, step.2)
    else (c :: step.1, false)

/-- Second pass of `grammar_cleanup`: `re.sub(r'\s+([.,!?;:])', r'\1', text)` —
a whitespace run immediately before a punctuation character is deleted. -/
def dropWSBeforePunct (l : List Char) : List Char :=
  (dropWSBeforePunctAux l).1

/-- Third pass of `grammar_cleanup`: `re.sub(r'([.,!?;:])([A-Za-z])', r'\1 \2', text)` —
insert a space between a punctuation character and a letter. -/
def spaceAfterPunct : List Char → List Char
  | [] => []
  | [c] => [c]
  | c :: c2 :: rest =>
    if isPunct c ∧ isAsciiLetter c2 then
      c :: ' ' :: spaceAfterPunct (c2 :: rest)
    else
      c :: spaceAfterPunct (c2 :: rest)

/-- Embedding of `grammar_cleanup`: the three regex substitutions followed by `strip()`. -/
def grammar_cleanup (text : String) : String :=
  pyStrip (String.mk (spaceAfterPunct (dropWSBeforePunct (squeezeWS text.data))))

/-- One entry of `TextureManager.TEXTURE_LIBRARY`. -/
structure TextureEntry where
  description : String
  category : String
  intensity : String
  compatible_with : List String
deriving DecidableEq, Repr

/-- Data of `TextureManager.TEXTURE_LIBRARY` in source order. -/
def TEXTURE_LIBRARY : List (String × TextureEntry) := [
  ("skin_realistic",
    { description := "natural skin texture with visible pores, fine lines, and individual hair strands",
      category := "organic", intensity := "high",
      compatible_with := ["fabric_detailed", "environmental_rich"] }),
  ("skin_pores",
    { description := "visible skin pores and natural skin texture detail",
      category := "organic", intensity := "medium",
      compatible_with := ["skin_realistic", "fabric_detailed"] }),
  ("hair_strands",
    { description := "individual hair strands with natural flyaways and texture",
      category := "organic", intensity := "high",
      compatible_with := ["skin_realistic", "fabric_detailed"] }),
  ("fabric_detailed",
    { description := "realistic fabric weave, natural folds, and authentic material reflectance",
      category := "material", intensity := "high",
      compatible_with := ["skin_realistic", "environmental_rich"] }),
  ("fabric_weave",
    { description := "visible fabric weave patterns and textile structure",
      category := "material", intensity := "medium",
      compatible_with := ["fabric_detailed", "sharp_micro"] }),
  ("material_reflectance",
    { description := "accurate material reflectance and surface properties",
      category := "material", intensity := "medium",
      compatible_with := ["fabric_detailed", "environmental_rich"] }),
  ("environmental_rich",
    { description := "atmospheric depth with fine surface details and accurate material properties",
      category := "environment", intensity := "high",
      compatible_with := ["skin_realistic", "fabric_detailed", "weathered_aged"] }),
  ("atmospheric_depth",
    { description := "atmospheric haze and depth perception with distance falloff",
      category := "environment", intensity := "medium",
      compatible_with := ["environmental_rich", "sharp_micro"] }),
  ("dust_particles",
    { description := "visible dust particles and air particulates in lighting",
      category := "environment", intensity := "low",
      compatible_with := ["environmental_rich", "atmospheric_depth"] }),
  ("sharp_micro",
    { description := "crisp high-frequency texture detail from foreground to background",
      category := "technical", intensity := "high",
      compatible_with := ["fabric_weave", "weathered_aged", "macro_detail"] }),
  ("macro_detail",
    { description := "extreme close-up detail with microscopic surface features",
      category := "technical", intensity := "very_high",
      compatible_with := ["sharp_micro", "material_reflectance"] }),
  ("weathered_aged",
    { description := "aged surfaces with wear patterns and patina of time",
      category := "aging", intensity := "medium",
      compatible_with := ["environmental_rich", "sharp_micro"] }),
  ("wear_patterns",
    { description := "natural wear patterns and use marks on surfaces",
      category := "aging", intensity := "medium",
      compatible_with := ["weathered_aged", "environmental_rich"] }),
  ("natural_imperfections",
    { description := "authentic natural imperfections and organic irregularities",
      category := "realism", intensity := "medium",
      compatible_with := ["skin_realistic", "weathered_aged"] }),
  ("unretouched_authentic",
    { description := "unretouched authentic appearance without digital smoothing",
      category := "realism", intensity := "high",
      compatible_with := ["skin_realistic", "natural_imperfections"] })
]

/-- Embedding of `TextureManager.get_compatible_textures`. -/
def get_compatible_textures (texture_key : String) : List String :=
  match List.lookup texture_key TEXTURE_LIBRARY with
  | none => []
  | some e => e.compatible_with

/-- Embedding of `TextureManager.combine_textures`.  The optional `secondary` argument
(`None` default) is an `Option String`; Python's `not secondary` is true for
`None` and for the empty string. -/
def combine_textures (primary : String) (secondary : Option String := none) : String :=
  match List.lookup primary TEXTURE_LIBRARY with
  | none => "realistic natural texture detail"
  | some pe =>
    let primary_desc := pe.description
    match secondary with
    | none => primary_desc
    | some s =>
      if s = "" then primary_desc
      else match List.lookup s TEXTURE_LIBRARY with
        | none => primary_desc
        | some se =>
          if s ∈ get_compatible_textures primary then
            if pe.category = se.category then
              primary_desc ++ ", additionally " ++ se.description
            else
              primary_desc ++ ", complemented by " ++ se.description
          else primary_desc

/-- Embedding of `TextureManager.get_all_textures_combined`: group descriptions by
category in first-occurrence order, take the first two of each non-realism
category, append every realism description, and comma-join. -/
def get_all_textures_combined : String :=
  let cats := (TEXTURE_LIBRARY.map (fun kv => kv.2.category)).eraseDups
  let descsOf := fun (c : String) =>
    ((TEXTURE_LIBRARY.filter (fun kv => kv.2.category = c)).map (fun kv => kv.2.description))
  let parts := (cats.filter (fun c => c ≠ "realism")).flatMap (fun c => (descsOf c).take 2)
  let parts := parts ++ (if "realism" ∈ cats then descsOf "realism" else [])
  String.intercalate ", " parts

/-- App version tag recorded in metadata. -/
def VERSION : String := "4.1.0"

/-- The "standard" realism anchor (also the fallback for unknown modes). -/
def realismStandard : String :=
  "This should look like an authentic photograph taken with a professional DSLR camera, with natural lighting physics, realistic material properties, and lifelike detail."

/-- Data of `REALISM_ANCHORS` in source order. -/
def REALISM_ANCHORS : List (String × String) := [
  ("standard", realismStandard),
  ("strict_no_cgi",
    "Render as authentic photography with zero CGI, plastic, or airbrushed effects. Maintain natural skin texture, visible pores, real fabric weave, and organic imperfections. Avoid any artificial smoothing, digital retouching, or computer-generated appearance. This must look like it was captured with a real camera sensor."),
  ("natural_unretouched",
    "Completely natural and unretouched photography with authentic textures. No digital smoothing, no plastic skin, no airbrushing, no CGI elements. Real camera optics, natural lighting physics, genuine material properties."),
  ("photojournalism",
    "Documentary-style authentic photography with journalistic integrity. No manipulation, no artificial enhancement, true-to-life representation with all natural imperfections and organic characteristics preserved.")
]

/-- Data of the `LIGHTING` dictionary in source order. -/
def LIGHTING : List (String × String) := [
  ("Soft Natural", "soft, warm natural daylight streaming through a nearby window, creating gentle shadows with a natural falloff"),
  ("Golden Hour", "golden hour sunlight bathing the scene in warm amber tones with soft ambient bounce light"),
  ("Studio Professional", "professional three-point studio lighting with soft key light, subtle fill, and rim lighting for depth"),
  ("Dramatic Side", "high-contrast dramatic lighting from the side, casting deep, moody shadows"),
  ("Overcast Diffused", "evenly diffused daylight from an overcast sky, eliminating harsh shadows"),
  ("Backlit Atmospheric", "strong backlighting creating a glowing rim around the subject with atmospheric depth"),
  ("Night Urban", "neon lights in blues and pinks reflecting off surfaces, creating a moody urban atmosphere"),
  ("Window Side", "soft window light from the side, creating dimensional modeling with gentle shadows"),
  ("Rembrandt", "classic Rembrandt lighting with triangular highlight on shadow-side cheek"),
  ("Butterfly", "butterfly lighting from above creating symmetrical shadow under nose")
]

/-- Data of the `COMPOSITION` dictionary in source order. -/
def COMPOSITION : List (String × String) := [
  ("Rule of Thirds", "composed using the rule of thirds, with the main subject positioned off-center for dynamic visual interest"),
  ("Centered Symmetrical", "framed with perfect symmetry, the subject centered for balance and powerful impact"),
  ("Leading Lines", "incorporating strong leading lines that naturally guide the viewer's eye toward the main subject"),
  ("Negative Space", "utilizing generous negative space around the subject for a minimalist, focused composition"),
  ("Environmental Context", "placing the subject within their environment, showing context and telling a broader visual story"),
  ("Dutch Angle", "shot with a tilted Dutch angle for dramatic tension"),
  ("Frame in Frame", "using natural framing elements within the composition")
]

/-- Data of the `QUALITY` dictionary in source order. -/
def QUALITY : List (String × String) := [
  ("Photorealistic 8K", "ultra-realistic with physically-based rendering, accurate global illumination, and 8K detail"),
  ("Film Analog - Portra 400", "shot on Kodak Portra 400 film stock, featuring subtle organic grain and natural color response"),
  ("Film Analog - Tri-X 400", "captured on Kodak Tri-X 400 black and white film with classic grain structure"),
  ("Editorial Commercial", "high-end editorial quality with precise color grading and commercial-grade polish"),
  ("Raw DSLR", "unprocessed DSLR aesthetic with natural dynamic range and authentic sensor characteristics"),
  ("Large Format Film", "captured on large format 4x5 film with exceptional detail and tonal range")
]

/-- Data of the `COLOR` dictionary in source order. -/
def COLOR : List (String × String) := [
  ("Neutral Accurate", "with neutral, true-to-life color tones maintaining accurate color reproduction"),
  ("Warm Golden", "with a warm color grade emphasizing golden and amber tones throughout"),
  ("Cool Cinematic", "with cool cinematic color temperature featuring blue and teal hues"),
  ("Muted Earthy", "with a desaturated, muted palette of subtle earth tones"),
  ("Vibrant Saturated", "with enhanced saturation for punchy, vivid colors while maintaining photorealistic quality"),
  ("Monochrome B&W", "rendered in rich black and white with deep shadows and bright highlights")
]

/-- Data of the `MOOD` dictionary in source order. -/
def MOOD : List (String × String) := [
  ("Serene Peaceful", "The overall mood is serene and calm, creating a peaceful, contemplative atmosphere"),
  ("Confident Powerful", "The atmosphere conveys strength and self-assurance with subtle but commanding intensity"),
  ("Intimate Warm", "Creating an intimate, warm emotional connection with soft, inviting energy"),
  ("Mysterious Dramatic", "Establishing a mysterious, dramatic atmosphere with rich shadows and intrigue"),
  ("Energetic Dynamic", "Capturing dynamic energy with a sense of vibrant motion and vitality"),
  ("Contemplative Quiet", "Evoking a thoughtful, introspective quiet moment of reflection")
]

/-- The source's `ASPECT_RATIO` dictionary in source order (renamed with a
trailing `S` for lexical reasons, content identical). -/
def ASPECT_RATIOS : List (String × String) := [
  ("Standard (3:2)", "3:2"),
  ("Square (1:1)", "1:1"),
  ("Portrait (2:3)", "2:3"),
  ("Widescreen (16:9)", "16:9"),
  ("Portrait Wide (9:16)", "9:16"),
  ("Cinema (2.39:1)", "2.39:1")
]

/-- One entry of `CAMERA_BODIES`. -/
structure CameraInfo where
  mount : String
  sensor : String
  description : String
  tier : String
  brand : String
deriving DecidableEq, Repr

/-- Data of the `CAMERA_BODIES` dictionary in source order. -/
def CAMERA_BODIES : List (String × CameraInfo) := [
  ("Canon EOS R5 Mark II",
    { mount := "Canon RF", sensor := "Full-frame 45MP",
      description := "Professional mirrorless flagship", tier := "flagship", brand := "Canon" }),
  ("Canon EOS R5",
    { mount := "Canon RF", sensor := "Full-frame 45MP",
      description := "High-resolution hybrid camera", tier := "professional", brand := "Canon" }),
  ("Canon EOS R6 Mark II",
    { mount := "Canon RF", sensor := "Full-frame 24MP",
      description := "Versatile full-frame mirrorless", tier := "professional", brand := "Canon" }),
  ("Canon EOS R3",
    { mount := "Canon RF", sensor := "Full-frame 24MP stacked",
      description := "Professional sports camera", tier := "flagship", brand := "Canon" }),
  ("Sony A1",
    { mount := "Sony E", sensor := "Full-frame 50MP stacked",
      description := "Professional flagship mirrorless", tier := "flagship", brand := "Sony" }),
  ("Sony A7R V",
    { mount := "Sony E", sensor := "Full-frame 61MP",
      description := "High-resolution specialist", tier := "professional", brand := "Sony" }),
  ("Sony A7 IV",
    { mount := "Sony E", sensor := "Full-frame 33MP",
      description := "Versatile hybrid camera", tier := "prosumer", brand := "Sony" }),
  ("Nikon Z9",
    { mount := "Nikon Z", sensor := "Full-frame 45MP stacked",
      description := "Professional flagship", tier := "flagship", brand := "Nikon" }),
  ("Nikon Z8",
    { mount := "Nikon Z", sensor := "Full-frame 45MP stacked",
      description := "Compact professional body", tier := "professional", brand := "Nikon" }),
  ("Fujifilm X-H2S",
    { mount := "Fujifilm X", sensor := "APS-C 26MP stacked",
      description := "Professional sports camera", tier := "professional", brand := "Fujifilm" }),
  ("Fujifilm GFX 100 II",
    { mount := "Fujifilm G", sensor := "Medium format 102MP",
      description := "Medium format powerhouse", tier := "flagship", brand := "Fujifilm" }),
  ("Leica SL3",
    { mount := "Leica L", sensor := "Full-frame 60MP",
      description := "Premium professional camera", tier := "flagship", brand := "Leica" }),
  ("Hasselblad X2D 100C",
    { mount := "Hasselblad X", sensor := "Medium format 100MP",
      description := "Ultimate medium format", tier := "flagship", brand := "Hasselblad" })
]

/-- One entry of `LENS_LIBRARY`.  `focal_length` and `max_aperture` are
numeric literals in the source (one focal length is the string "70-200");
they are carried as display text here because no code computes with them.
The source field `type` is named `kind` here. -/
structure LensInfo where
  focal_length : String
  max_aperture : String
  kind : String
  description : String
  use_case : List String
  characteristics : String
deriving DecidableEq, Repr

/-- Data of the `LENS_LIBRARY` dictionary in source order. -/
def LENS_LIBRARY : List (String × LensInfo) := [
  ("16mm f/2.8",
    { focal_length := "16", max_aperture := "2.8", kind := "ultra-wide",
      description := "ultra-wide 16mm f/2.8 lens for dramatic environmental perspective",
      use_case := ["landscape", "architecture", "environmental"],
      characteristics := "extreme field of view with minimal distortion" }),
  ("24mm f/1.4",
    { focal_length := "24", max_aperture := "1.4", kind := "wide",
      description := "wide-angle 24mm f/1.4 lens with excellent low-light capability",
      use_case := ["landscape", "environmental", "astrophotography"],
      characteristics := "sharp across the frame with beautiful bokeh" }),
  ("24mm f/2.8",
    { focal_length := "24", max_aperture := "2.8", kind := "wide",
      description := "compact 24mm f/2.8 wide-angle lens",
      use_case := ["landscape", "street", "documentary"],
      characteristics := "lightweight and portable with good sharpness" }),
  ("35mm f/1.4",
    { focal_length := "35", max_aperture := "1.4", kind := "wide-normal",
      description := "versatile 35mm f/1.4 lens with natural perspective",
      use_case := ["street", "documentary", "portrait", "environmental"],
      characteristics := "excellent for storytelling with shallow depth of field" }),
  ("35mm f/1.8",
    { focal_length := "35", max_aperture := "1.8", kind := "wide-normal",
      description := "compact 35mm f/1.8 lens for everyday photography",
      use_case := ["street", "documentary", "travel"],
      characteristics := "lightweight with natural field of view" }),
  ("35mm f/2",
    { focal_length := "35", max_aperture := "2.0", kind := "wide-normal",
      description := "35mm f/2 lens balancing size and performance",
      use_case := ["street", "travel", "general"],
      characteristics := "compact and sharp with pleasant rendering" }),
  ("50mm f/1.2",
    { focal_length := "50", max_aperture := "1.2", kind := "standard",
      description := "premium 50mm f/1.2 lens with ultra-shallow depth of field",
      use_case := ["portrait", "low-light", "artistic"],
      characteristics := "exceptional bokeh and subject isolation" }),
  ("50mm f/1.4",
    { focal_length := "50", max_aperture := "1.4", kind := "standard",
      description := "classic 50mm f/1.4 standard lens with natural perspective",
      use_case := ["portrait", "street", "general"],
      characteristics := "versatile focal length with excellent low-light performance" }),
  ("50mm f/1.8",
    { focal_length := "50", max_aperture := "1.8", kind := "standard",
      description := "affordable 50mm f/1.8 standard lens",
      use_case := ["portrait", "general", "beginner"],
      characteristics := "sharp and lightweight at all apertures" }),
  ("85mm f/1.2",
    { focal_length := "85", max_aperture := "1.2", kind := "portrait",
      description := "premium 85mm f/1.2 portrait lens with legendary bokeh",
      use_case := ["portrait", "fashion", "fine-art"],
      characteristics := "creamy bokeh and exceptional subject separation" }),
  ("85mm f/1.4",
    { focal_length := "85", max_aperture := "1.4", kind := "portrait",
      description := "professional 85mm f/1.4 portrait lens",
      use_case := ["portrait", "wedding", "editorial"],
      characteristics := "beautiful compression and smooth out-of-focus rendering" }),
  ("85mm f/1.8",
    { focal_length := "85", max_aperture := "1.8", kind := "portrait",
      description := "compact 85mm f/1.8 portrait lens",
      use_case := ["portrait", "event", "street"],
      characteristics := "sharp with pleasant bokeh at accessible price" }),
  ("105mm f/1.4",
    { focal_length := "105", max_aperture := "1.4", kind := "portrait-tele",
      description := "unique 105mm f/1.4 portrait lens with extreme bokeh",
      use_case := ["portrait", "artistic", "fashion"],
      characteristics := "exceptional subject isolation and dreamy bokeh" }),
  ("135mm f/1.8",
    { focal_length := "135", max_aperture := "1.8", kind := "telephoto-portrait",
      description := "telephoto 135mm f/1.8 lens with strong compression",
      use_case := ["portrait", "fashion", "sports"],
      characteristics := "strong perspective compression and ultra-shallow DOF" }),
  ("135mm f/2",
    { focal_length := "135", max_aperture := "2.0", kind := "telephoto-portrait",
      description := "classic 135mm f/2 telephoto portrait lens",
      use_case := ["portrait", "wedding", "sports"],
      characteristics := "flattering compression with smooth bokeh" }),
  ("90mm f/2.8 Macro",
    { focal_length := "90", max_aperture := "2.8", kind := "macro",
      description := "90mm f/2.8 1:1 macro lens for extreme detail",
      use_case := ["macro", "product", "portrait"],
      characteristics := "1:1 magnification with exceptional sharpness" }),
  ("100mm f/2.8 Macro",
    { focal_length := "100", max_aperture := "2.8", kind := "macro",
      description := "100mm f/2.8 1:1 macro lens with image stabilization",
      use_case := ["macro", "product", "nature"],
      characteristics := "true 1:1 reproduction with superb micro-contrast" }),
  ("200mm f/2",
    { focal_length := "200", max_aperture := "2.0", kind := "telephoto",
      description := "professional 200mm f/2 telephoto lens",
      use_case := ["sports", "wildlife", "portrait"],
      characteristics := "extreme compression and background isolation" }),
  ("70-200mm f/2.8",
    { focal_length := "70-200", max_aperture := "2.8", kind := "telephoto-zoom",
      description := "professional 70-200mm f/2.8 zoom lens",
      use_case := ["portrait", "wedding", "sports", "event"],
      characteristics := "versatile range with constant f/2.8 aperture" })
]

/-- Embedding of `build_camera_description`.  `CAMERA_BODIES.get(camera_body, \x7b\x7d)`
and `LENS_LIBRARY.get(lens, \x7b\x7d)` become `Option` lookups; every camera
entry has a `sensor` field and every lens entry has `characteristics`, so
the inner `.get` defaults never fire. -/
def build_camera_description (camera_body lens : String) (iso : Nat := 100) : String :=
  let camera_info := List.lookup camera_body CAMERA_BODIES
  let lens_info := List.lookup lens LENS_LIBRARY
  let lens_desc :=
    match lens_info with
    | none => "using a " ++ lens ++ " lens at ISO " ++ toString iso
    | some info =>
        "using a " ++ info.description ++ " at ISO " ++ toString iso ++ ", " ++ info.characteristics
  match camera_info with
  | some info => "captured on a " ++ camera_body ++ " (" ++ info.sensor ++ ") " ++ lens_desc
  | none => "captured " ++ lens_desc

/-- Python `str.lower()` (ASCII range; `mode` values in the app are ASCII). -/
def pyLower (s : String) : String :=
  String.mk (s.data.map Char.toLower)

/-- Truthiness of the optional `texture_secondary` argument. -/
def optTruthy : Option String → Bool
  | none => false
  | some s => s ≠ ""

/-- The four values drawn from `random.choice` when `randomize` is set,
represented as externally supplied indices (see `listChoice`). -/
structure RandDraw where
  lighting_idx : Nat
  mood_idx : Nat
  color_idx : Nat
  lens_idx : Nat
deriving DecidableEq, Repr

/-- The arguments of `build_prompt`, in source parameter order. -/
structure PromptRequest where
  mode : String
  subject : String
  setting : String
  camera_body : String
  lens : String
  iso : Nat
  lighting : String
  composition : String
  texture_primary : String
  texture_secondary : Option String
  texture_mode : String
  quality : String
  mood : String
  color : String
  aspect_ratio : String
  realism_mode : String
  negative : String := ""
  randomize : Bool := false
deriving DecidableEq, Repr

/-- The metadata dict returned by `build_prompt` (its keys, in dict order,
are `Metadata.keys`). -/
structure Metadata where
  timestamp : String
  version : String
  mode : String
  camera_body : String
  lens : String
  iso : Nat
  lighting : String
  composition : String
  texture_primary : String
  texture_secondary : Option String
  texture_mode : String
  quality : String
  mood : String
  color : String
  aspect_ratio : String
  realism_mode : String
  randomized : Bool
deriving DecidableEq, Repr

/-- The key set of the metadata dict built by `build_prompt`. -/
def Metadata.keys : List String :=
  ["timestamp", "version", "mode", "camera_body", "lens", "iso", "lighting",
   "composition", "texture_primary", "texture_secondary", "texture_mode",
   "quality", "mood", "color", "aspect_ratio", "realism_mode", "randomized"]

/-- The dict returned by `build_prompt`. -/
structure BuildResult where
  prompt : String
  metadata : Metadata
deriving DecidableEq, Repr

/-- Data of the `default_negatives` list inside `build_prompt`. -/
def default_negatives : List String :=
  ["plastic skin", "airbrushed", "CGI", "3D render", "digital painting",
   "artificial smoothing", "unrealistic textures", "synthetic appearance",
   "overly smooth skin", "fake materials"]

/-- Embedding of `build_prompt`.  Python raises `KeyError` on the six bare dict
lookups (`ASPECT_RATIO[...]`, `LIGHTING[...]`, `COMPOSITION[...]`,
`QUALITY[...]`, `MOOD[...]`, `COLOR[...]`), modelled by `Except`; the
lookups are performed in the source's evaluation order.  `rng` supplies
the values drawn by `random.choice` and `now` the value of
`datetime.now().isoformat()`. -/
def build_prompt (req : PromptRequest) (rng : RandDraw) (now : String) : Except String BuildResult :=
  let subject := sanitize_text req.subject
  let setting := sanitize_text req.setting
  let lighting := if req.randomize then listChoice (LIGHTING.map Prod.fst) rng.lighting_idx else req.lighting
  let mood := if req.randomize then listChoice (MOOD.map Prod.fst) rng.mood_idx else req.mood
  let color := if req.randomize then listChoice (COLOR.map Prod.fst) rng.color_idx else req.color
  let lens := if req.randomize then listChoice (LENS_LIBRARY.map Prod.fst) rng.lens_idx else req.lens
  match dictGet ASPECT_RATIOS req.aspect_ratio with
  | Except.error e => Except.error e
  | Except.ok ratio =>
  let camera_desc := build_camera_description req.camera_body lens req.iso
  let texture_desc :=
    if req.texture_mode = "all_combined" then get_all_textures_combined
    else if req.texture_mode = "primary_secondary" ∧ optTruthy req.texture_secondary then
      combine_textures req.texture_primary req.texture_secondary
    else
      combine_textures req.texture_primary none
  match dictGet LIGHTING lighting with
  | Except.error e => Except.error e
  | Except.ok lighting_desc =>
  match dictGet COMPOSITION req.composition with
  | Except.error e => Except.error e
  | Except.ok composition_desc =>
  match dictGet QUALITY req.quality with
  | Except.error e => Except.error e
  | Except.ok quality_desc =>
  match dictGet MOOD mood with
  | Except.error e => Except.error e
  | Except.ok mood_raw =>
  match dictGet COLOR color with
  | Except.error e => Except.error e
  | Except.ok color_text =>
  let prompt_parts := [
    "A photorealistic " ++ pyLower req.mode ++ " photograph of " ++ subject ++ ", set in " ++ setting ++ ".",
    "The scene is illuminated by " ++ lighting_desc ++ ".",
    "The image is " ++ camera_desc ++ ", " ++ composition_desc ++ ".",
    "The photograph is " ++ quality_desc ++ ", " ++ texture_desc ++ ".",
    pyRstripDot mood_raw ++ " " ++ color_text ++ ".",
    "Image format: " ++ ratio ++ " aspect ratio."
  ]
  let base_prompt := grammar_cleanup (String.intercalate " " prompt_parts)
  let realism_anchor := (List.lookup req.realism_mode REALISM_ANCHORS).getD realismStandard
  let final_prompt := grammar_cleanup (base_prompt ++ " " ++ realism_anchor)
  let combined_negative :=
    if req.negative ≠ "" ∧ pyStrip req.negative ≠ "" then
      sanitize_text req.negative ++ ", " ++ String.intercalate ", " default_negatives
    else
      String.intercalate ", " default_negatives
  let final_prompt := final_prompt ++ "\n\nAvoid: " ++ combined_negative
  Except.ok {
    prompt := final_prompt,
    metadata := {
      timestamp := now,
      version := VERSION,
      mode := req.mode,
      camera_body := req.camera_body,
      lens := lens,
      iso := req.iso,
      lighting := lighting,
      composition := req.composition,
      texture_primary := req.texture_primary,
      texture_secondary := req.texture_secondary,
      texture_mode := req.texture_mode,
      quality := req.quality,
      mood := mood,
      color := color,
      aspect_ratio := ratio,
      realism_mode := req.realism_mode,
      randomized := req.randomize
    }
  }

/-- The generation flow of `main` (lines 1253-1281): reject the raw
subject/setting via `validate_input` before `build_prompt` is called. -/
def generate (req : PromptRequest) (rng : RandDraw) (now : String) : Except String BuildResult :=
  if ¬ validate_input req.subject then
    Except.error "Subject description is required (minimum 3 characters)"
  else if ¬ validate_input req.setting then
    Except.error "Setting description is required (minimum 3 characters)"
  else
    build_prompt req rng now

/-- Options object of the `/api/generate` payload (the float literal 0.6
is carried as text; nothing computes with it). -/
structure GenerateOptions where
  temperature : String
  num_predict : Nat
deriving DecidableEq, Repr

/-- Payload of `ollama_integration.enhance_prompt`. -/
structure GeneratePayload where
  model : String
  prompt : String
  stream : Bool
  options : GenerateOptions
deriving DecidableEq, Repr

/-- Outcome of the `requests.post` call: an exception (timeout,
connection error), or an HTTP reply with its `r.ok` flag and the JSON
`response` field (`""` when the field is missing). -/
inductive ServerOutcome where
  | exn : ServerOutcome
  | reply (ok : Bool) (response : String) : ServerOutcome
deriving DecidableEq, Repr

/-- The `strict` instruction preamble of `enhance_prompt`. -/
def strictTask : String :=
  "Rewrite the following prompt for clarity, grammar, and readability, without altering any factual or technical details. Preserve all realism and lighting instructions."

/-- The `creative` instruction preamble of `enhance_prompt`. -/
def creativeTask : String :=
  "Rewrite the following prompt in a cinematic and emotionally rich style, keeping all photographic and realism specifications intact. Enhance flow and immersion."

/-- The payload `enhance_prompt` posts to `/api/generate`. -/
def enhancePayload (prompt model mode : String) : GeneratePayload :=
  let task := if mode = "strict" then strictTask else creativeTask
  { model := model,
    prompt := task ++ "\n\nPrompt:\n" ++ prompt ++ "\n\nEnhanced version:",
    stream := false,
    options := { temperature := "0.6", num_predict := 400 } }

/-- Embedding of `ollama_integration.enhance_prompt`.  The network is the `server`
argument: the reply is a function of the posted payload. -/
def enhance_prompt (prompt model : String) (mode : String := "creative")
    (server : GeneratePayload → ServerOutcome) : String × Bool :=
  if model = "" then (prompt, false)
  else
    match server (enhancePayload prompt model mode) with
    | ServerOutcome.exn => (prompt, false)
    | ServerOutcome.reply ok response =>
      if ok then
        let r := pyStrip response
        if r ≠ "" then (r, true) else (prompt, false)
      else (prompt, false)

/-- A concrete request (the end-to-end example of the spec) used to
instantiate theorems at explicit inputs. -/
def sampleRequest : PromptRequest := {
  mode := "Portrait",
  subject := "a woman in a red coat",
  setting := "a rainy city street",
  camera_body := "Canon EOS R5 Mark II",
  lens := "85mm f/1.4",
  iso := 100,
  lighting := "Golden Hour",
  composition := "Rule of Thirds",
  texture_primary := "skin_realistic",
  texture_secondary := some "fabric_detailed",
  texture_mode := "primary_secondary",
  quality := "Photorealistic 8K",
  mood := "Intimate Warm",
  color := "Warm Golden",
  aspect_ratio := "Portrait (2:3)",
  realism_mode := "strict_no_cgi",
  negative := "",
  randomize := false }

/-! ## Helper lemmas -/

/-- A successful association-list lookup exhibits a member pair. -/
theorem mem_of_lookup_eq_some {α β : Type} [BEq α] [LawfulBEq α]
    {l : List (α × β)} {k : α} {v : β}
    (h : List.lookup k l = some v) : (k, v) ∈ l := by
  obtain ⟨l₁, l₂, rfl, -⟩ := List.lookup_eq_some_iff.mp h
  exact List.mem_append.mpr (Or.inr (List.mem_cons_self _ _))

/-- A key occurring among the first components makes the lookup succeed. -/
theorem lookup_isSome_of_mem_keys {α β : Type} [BEq α] [LawfulBEq α]
    {l : List (α × β)} {k : α}
    (h : k ∈ l.map Prod.fst) : (List.lookup k l).isSome := by
  rw [List.lookup_isSome_iff]
  obtain ⟨p, hp, hk⟩ := List.mem_map.mp h
  exact ⟨p, hp, by simp [hk]⟩

/-- Helper: `listChoice` always returns an element of a nonempty list. -/
theorem listChoice_mem (xs : List String) (h : xs ≠ []) (i : Nat) :
    listChoice xs i ∈ xs := by
  unfold listChoice
  have hlen : 0 < xs.length := List.length_pos.mpr h
  have hm : i % xs.length < xs.length := Nat.mod_lt _ hlen
  rw [List.getD_eq_getElem?_getD, List.getElem?_eq_getElem hm]
  exact List.getElem_mem hm

/-- Characters surviving `pyStrip` come from the original string. -/
theorem mem_of_mem_pyStrip {s : String} {c : Char} (h : c ∈ (pyStrip s).data) :
    c ∈ s.data := by
  unfold pyStrip at h
  rw [show (String.mk (((s.data.dropWhile isPySpace).reverse.dropWhile isPySpace).reverse)).data
        = ((s.data.dropWhile isPySpace).reverse.dropWhile isPySpace).reverse from rfl] at h
  rw [List.mem_reverse] at h
  have h2 := List.Sublist.mem h (List.dropWhile_sublist isPySpace)
  rw [List.mem_reverse] at h2
  exact List.Sublist.mem h2 (List.dropWhile_sublist isPySpace)

/-- Helper: `pyStrip` never lengthens a string. -/
theorem pyStrip_length_le (s : String) : (pyStrip s).length ≤ s.length := by
  show (((s.data.dropWhile isPySpace).reverse.dropWhile isPySpace).reverse).length ≤ s.data.length
  rw [List.length_reverse]
  have h1 := List.Sublist.length_le (List.dropWhile_sublist (l := (s.data.dropWhile isPySpace).reverse) isPySpace)
  rw [List.length_reverse] at h1
  have h2 := List.Sublist.length_le (List.dropWhile_sublist (l := s.data) isPySpace)
  omega

/-! ## Claims -/

/-- C2: for catalog textures `p` and `s` with `s` in `p`'s compatibility
set, `combine_textures p (some s)` is `p`'s description joined with `s`'s
description, with connective ", additionally " when the categories agree
and ", complemented by " when they differ (so the output contains both
descriptions). -/
theorem c2_combine_compatible (p s : String) (pe se : TextureEntry)
    (hp : List.lookup p TEXTURE_LIBRARY = some pe)
    (hs : List.lookup s TEXTURE_LIBRARY = some se)
    (hcompat : s ∈ pe.compatible_with) :
    combine_textures p (some s) =
      pe.description ++
        (if pe.category = se.category then ", additionally " else ", complemented by ") ++
        se.description := by
  have hne : s ≠ "" := by
    intro h
    rw [h, show List.lookup "" TEXTURE_LIBRARY = none from by decide] at hs
    exact Option.noConfusion hs
  simp only [combine_textures, hp, hs, get_compatible_textures, if_neg hne, if_pos hcompat]
  split <;> simp

/-- Witness for C2 at a concrete cross-category pair. -/
theorem c2_witness :
    combine_textures "skin_realistic" (some "fabric_detailed") =
      "natural skin texture with visible pores, fine lines, and individual hair strands" ++
        (if ("organic" : String) = "material" then ", additionally " else ", complemented by ") ++
        "realistic fabric weave, natural folds, and authentic material reflectance" :=
  c2_combine_compatible "skin_realistic" "fabric_detailed"
    ⟨"natural skin texture with visible pores, fine lines, and individual hair strands",
      "organic", "high", ["fabric_detailed", "environmental_rich"]⟩
    ⟨"realistic fabric weave, natural folds, and authentic material reflectance",
      "material", "high", ["skin_realistic", "environmental_rich"]⟩
    (by decide) (by decide) (by decide)

/-- C3: an unknown primary yields the fixed fallback phrase for every
secondary argument; a known primary with an absent, empty, unknown, or
incompatible secondary yields the primary description unchanged (silent
downgrade, no error). -/
theorem c3_combine_fallbacks (p : String) (s : Option String) :
    (List.lookup p TEXTURE_LIBRARY = none →
      combine_textures p s = "realistic natural texture detail") ∧
    (∀ pe, List.lookup p TEXTURE_LIBRARY = some pe →
      (s = none ∨ s = some "" ∨
        (∃ k, s = some k ∧
          (List.lookup k TEXTURE_LIBRARY = none ∨ k ∉ pe.compatible_with))) →
      combine_textures p s = pe.description) := by
  constructor
  · intro hp
    simp only [combine_textures, hp]
  · intro pe hp hcase
    rcases hcase with h | h | ⟨k, rfl, hk⟩
    · rw [h]; simp only [combine_textures, hp]
    · rw [h]; simp [combine_textures, hp]
    · by_cases hk0 : k = ""
      · simp only [combine_textures, hp, if_pos hk0]
      · rcases hk with hnone | hnotc
        · simp only [combine_textures, hp, if_neg hk0, hnone]
        · cases hlk : List.lookup k TEXTURE_LIBRARY with
          | none => simp only [combine_textures, hp, if_neg hk0, hlk]
          | some se =>
            simp only [combine_textures, hp, if_neg hk0, hlk,
              get_compatible_textures, if_neg hnotc]

/-- Witness for C3: unknown primary, and known primary with an
incompatible secondary. -/
theorem c3_witness :
    combine_textures "granite" (some "skin_realistic") = "realistic natural texture detail" ∧
    combine_textures "skin_realistic" (some "macro_detail") =
      "natural skin texture with visible pores, fine lines, and individual hair strands" :=
  ⟨(c3_combine_fallbacks "granite" (some "skin_realistic")).1 (by decide),
   (c3_combine_fallbacks "skin_realistic" (some "macro_detail")).2
     ⟨"natural skin texture with visible pores, fine lines, and individual hair strands",
       "organic", "high", ["fabric_detailed", "environmental_rich"]⟩
     (by decide)
     (Or.inr (Or.inr ⟨"macro_detail", rfl, Or.inr (by decide)⟩))⟩

/-- C9: no texture lists its own key in its `compatible_with` set, so
combining any catalog texture with itself returns its description alone. -/
theorem c9_self_combine :
    (∀ kv ∈ TEXTURE_LIBRARY, kv.1 ∉ kv.2.compatible_with) ∧
    (∀ p pe, List.lookup p TEXTURE_LIBRARY = some pe →
      combine_textures p (some p) = pe.description) := by
  have hnoself : ∀ kv ∈ TEXTURE_LIBRARY, kv.1 ∉ kv.2.compatible_with := by decide
  refine ⟨hnoself, ?_⟩
  intro p pe hp
  have hself := hnoself _ (mem_of_lookup_eq_some hp)
  have hne : p ≠ "" := by
    intro h
    rw [h, show List.lookup "" TEXTURE_LIBRARY = none from by decide] at hp
    exact Option.noConfusion hp
  simp only [combine_textures, hp, if_neg hne, get_compatible_textures,
    if_neg hself]

/-- Witness for C9 at a concrete texture. -/
theorem c9_witness :
    combine_textures "skin_realistic" (some "skin_realistic") =
      "natural skin texture with visible pores, fine lines, and individual hair strands" :=
  c9_self_combine.2 "skin_realistic"
    ⟨"natural skin texture with visible pores, fine lines, and individual hair strands",
      "organic", "high", ["fabric_detailed", "environmental_rich"]⟩
    (by decide)

/-- C7: `sanitize_text` removes every occurrence of `"`, `;`, `<`, `>`
and its result never exceeds 500 characters. -/
theorem c7_sanitize (s : String) :
    (sanitize_text s).length ≤ 500 ∧
    ∀ c ∈ (sanitize_text s).data, c ≠ '"' ∧ c ≠ ';' ∧ c ≠ '<' ∧ c ≠ '>' := by
  unfold sanitize_text
  constructor
  · show (pyStrip (String.mk ((s.data.filter (fun c => ¬ (c = '"' ∨ c = ';' ∨ c = '<' ∨ c = '>'))).take 500))).length ≤ 500
    have h1 := pyStrip_length_le
      (String.mk ((s.data.filter (fun c => ¬ (c = '"' ∨ c = ';' ∨ c = '<' ∨ c = '>'))).take 500))
    have h2 : (String.mk ((s.data.filter (fun c => ¬ (c = '"' ∨ c = ';' ∨ c = '<' ∨ c = '>'))).take 500)).length ≤ 500 := by
      show ((s.data.filter (fun c => ¬ (c = '"' ∨ c = ';' ∨ c = '<' ∨ c = '>'))).take 500).length ≤ 500
      simp [List.length_take]
    omega
  · intro c hc
    have h1 := mem_of_mem_pyStrip (s := String.mk ((s.data.filter (fun c => ¬ (c = '"' ∨ c = ';' ∨ c = '<' ∨ c = '>'))).take 500)) hc
    rw [show (String.mk ((s.data.filter (fun c => ¬ (c = '"' ∨ c = ';' ∨ c = '<' ∨ c = '>'))).take 500)).data
          = ((s.data.filter (fun c => ¬ (c = '"' ∨ c = ';' ∨ c = '<' ∨ c = '>'))).take 500) from rfl] at h1
    have h2 := List.Sublist.mem h1 (List.take_sublist 500 _)
    have h3 := (List.mem_filter.mp h2).2
    have h4 := of_decide_eq_true h3
    push_neg at h4
    exact ⟨h4.1, h4.2.1, h4.2.2.1, h4.2.2.2⟩

/-- Witness for C7 at a concrete string containing all four characters. -/
theorem c7_witness :
    (sanitize_text "a\"b;c<d>e").length ≤ 500 ∧
    ∀ c ∈ (sanitize_text "a\"b;c<d>e").data, c ≠ '"' ∧ c ≠ ';' ∧ c ≠ '<' ∧ c ≠ '>' :=
  c7_sanitize "a\"b;c<d>e"

/-- C6: with `randomize = false` the assembled prompt (and the whole
result) is a deterministic function of the request and the fixed clock:
the random source is never consulted. -/
theorem c6_deterministic (req : PromptRequest) (h : req.randomize = false)
    (rng1 rng2 : RandDraw) (now : String) :
    build_prompt req rng1 now = build_prompt req rng2 now := by
  simp only [build_prompt, h, Bool.false_eq_true, if_false]

/-- Witness for C6: two different random draws give the same result. -/
theorem c6_witness :
    build_prompt sampleRequest ⟨0, 0, 0, 0⟩ "2026-10-12T00:00:00" =
      build_prompt sampleRequest ⟨7, 3, 5, 11⟩ "2026-10-12T00:00:00" :=
  c6_deterministic sampleRequest rfl ⟨0, 0, 0, 0⟩ ⟨7, 3, 5, 11⟩ "2026-10-12T00:00:00"

/-- C8: `enhance_prompt` returns `(prompt, false)` immediately on an empty
model; its success flag is `true` exactly when the posted request got a
2xx reply whose stripped `response` field is non-empty, in which case the
returned text is that response; in every failure case the original prompt
comes back with `false`, and the function is total (failures are swallowed,
never propagated). -/
theorem c8_enhance_policy (prompt model mode : String)
    (server : GeneratePayload → ServerOutcome) :
    (model = "" → enhance_prompt prompt model mode server = (prompt, false)) ∧
    ((enhance_prompt prompt model mode server).2 = true →
      model ≠ "" ∧
      ∃ resp, server (enhancePayload prompt model mode) = ServerOutcome.reply true resp ∧
        pyStrip resp ≠ "" ∧
        enhance_prompt prompt model mode server = (pyStrip resp, true)) ∧
    ((enhance_prompt prompt model mode server).2 = false →
      (enhance_prompt prompt model mode server).1 = prompt) := by
  by_cases hm : model = ""
  · simp [enhance_prompt, hm]
  · cases hsv : server (enhancePayload prompt model mode) with
    | exn =>
      have hred : enhance_prompt prompt model mode server = (prompt, false) := by
        unfold enhance_prompt; rw [if_neg hm, hsv]
      rw [hred]
      exact ⟨fun h => absurd h hm, fun h => by simp at h, fun _ => rfl⟩
    | reply ok resp =>
      cases ok with
      | false =>
        have hred : enhance_prompt prompt model mode server = (prompt, false) := by
          unfold enhance_prompt; rw [if_neg hm, hsv]; simp
        rw [hred]
        exact ⟨fun h => absurd h hm, fun h => by simp at h, fun _ => rfl⟩
      | true =>
        by_cases hr : pyStrip resp = ""
        · have hred : enhance_prompt prompt model mode server = (prompt, false) := by
            unfold enhance_prompt; rw [if_neg hm, hsv]; simp [hr]
          rw [hred]
          exact ⟨fun h => absurd h hm, fun h => by simp at h, fun _ => rfl⟩
        · have hred : enhance_prompt prompt model mode server = (pyStrip resp, true) := by
            unfold enhance_prompt; rw [if_neg hm, hsv]; simp [hr]
          rw [hred]
          exact ⟨fun h => absurd h hm, fun _ => ⟨hm, resp, rfl, hr, rfl⟩, fun h => by simp at h⟩

/-- Witness for C8: empty model short-circuits. -/
theorem c8_witness :
    enhance_prompt "a prompt" "" "creative" (fun _ => ServerOutcome.exn) = ("a prompt", false) :=
  (c8_enhance_policy "a prompt" "" "creative" (fun _ => ServerOutcome.exn)).1 rfl

/-- C10: with a non-empty model and a 2xx reply, a whitespace-only
`response` body counts as failure (original prompt, `false`); on success
the returned text is the stripped server response, not the raw body. -/
theorem c10_strip_empty (prompt model mode resp : String)
    (server : GeneratePayload → ServerOutcome)
    (hm : model ≠ "")
    (hs : server (enhancePayload prompt model mode) = ServerOutcome.reply true resp) :
    (pyStrip resp = "" → enhance_prompt prompt model mode server = (prompt, false)) ∧
    (pyStrip resp ≠ "" → enhance_prompt prompt model mode server = (pyStrip resp, true)) := by
  constructor
  · intro h
    unfold enhance_prompt; rw [if_neg hm, hs]; simp [h]
  · intro h
    unfold enhance_prompt; rw [if_neg hm, hs]; simp [h]

/-- Witness for C10: a whitespace-only 2xx body is rejected, and a padded
body is returned stripped. -/
theorem c10_witness :
    enhance_prompt "base" "somemodel" "creative" (fun _ => ServerOutcome.reply true "   ") = ("base", false) ∧
    enhance_prompt "base" "somemodel" "creative" (fun _ => ServerOutcome.reply true " X ") = ("X", true) :=
  ⟨(c10_strip_empty "base" "somemodel" "creative" "   " (fun _ => ServerOutcome.reply true "   ")
      (by decide) rfl).1 (by decide),
   by
    have h := (c10_strip_empty "base" "somemodel" "creative" " X " (fun _ => ServerOutcome.reply true " X ")
      (by decide) rfl).2 (by decide)
    simpa using h⟩

/-- Counterexample to C1 as stated: an unknown lighting key makes
`build_prompt` raise `KeyError` even though subject and setting are valid
— not every catalog lookup degrades to a fallback. -/
theorem c1_counterexample :
    build_prompt { sampleRequest with lighting := "Candlelight" } ⟨0, 0, 0, 0⟩
        "2026-10-12T00:00:00" =
      Except.error "KeyError: Candlelight" := by
  rfl

/-- C1 (amended): the camera-body, lens, texture and realism-mode lookups
degrade to fallbacks — those arguments may be arbitrary strings — but the
lighting, composition, quality, mood, color and aspect-ratio lookups are
bare dict indexing; `build_prompt` returns normally when those six
(post-randomization) keys are present in their catalogs, whatever the
other key strings are. -/
theorem c1_amended_fallbacks (req : PromptRequest) (rng : RandDraw) (now : String)
    (ha : req.aspect_ratio ∈ ASPECT_RATIOS.map Prod.fst)
    (hc : req.composition ∈ COMPOSITION.map Prod.fst)
    (hq : req.quality ∈ QUALITY.map Prod.fst)
    (hl : req.randomize = false → req.lighting ∈ LIGHTING.map Prod.fst)
    (hmo : req.randomize = false → req.mood ∈ MOOD.map Prod.fst)
    (hco : req.randomize = false → req.color ∈ COLOR.map Prod.fst) :
    (build_prompt req rng now).toOption.isSome = true := by
  have hlight : (List.lookup (if req.randomize then listChoice (LIGHTING.map Prod.fst) rng.lighting_idx else req.lighting) LIGHTING).isSome := by
    cases hrd : req.randomize with
    | false => simp only [hrd, Bool.false_eq_true, if_false]; exact lookup_isSome_of_mem_keys (hl hrd)
    | true => simp only [hrd, if_true]; exact lookup_isSome_of_mem_keys (listChoice_mem _ (by decide) _)
  have hmood : (List.lookup (if req.randomize then listChoice (MOOD.map Prod.fst) rng.mood_idx else req.mood) MOOD).isSome := by
    cases hrd : req.randomize with
    | false => simp only [hrd, Bool.false_eq_true, if_false]; exact lookup_isSome_of_mem_keys (hmo hrd)
    | true => simp only [hrd, if_true]; exact lookup_isSome_of_mem_keys (listChoice_mem _ (by decide) _)
  have hcolor : (List.lookup (if req.randomize then listChoice (COLOR.map Prod.fst) rng.color_idx else req.color) COLOR).isSome := by
    cases hrd : req.randomize with
    | false => simp only [hrd, Bool.false_eq_true, if_false]; exact lookup_isSome_of_mem_keys (hco hrd)
    | true => simp only [hrd, if_true]; exact lookup_isSome_of_mem_keys (listChoice_mem _ (by decide) _)
  obtain ⟨ra, hra⟩ := Option.isSome_iff_exists.mp (lookup_isSome_of_mem_keys ha)
  obtain ⟨cd, hcd⟩ := Option.isSome_iff_exists.mp (lookup_isSome_of_mem_keys hc)
  obtain ⟨qd, hqd⟩ := Option.isSome_iff_exists.mp (lookup_isSome_of_mem_keys hq)
  obtain ⟨ld, hld⟩ := Option.isSome_iff_exists.mp hlight
  obtain ⟨md, hmd⟩ := Option.isSome_iff_exists.mp hmood
  obtain ⟨cod, hcod⟩ := Option.isSome_iff_exists.mp hcolor
  simp only [build_prompt, dictGet, hra, hld, hcd, hqd, hmd, hcod, Except.toOption,
    Option.isSome_some]

/-- Witness for C1 (amended): unknown camera body, lens, texture and
realism mode still produce a prompt. -/
theorem c1_witness :
    (build_prompt { sampleRequest with
          camera_body := "Pinhole Box", lens := "Mystery Glass",
          texture_primary := "granite", texture_secondary := some "velvet",
          realism_mode := "no_such_mode" } ⟨0, 0, 0, 0⟩ "2026-10-12T00:00:00").toOption.isSome = true :=
  c1_amended_fallbacks _ _ _ (by decide) (by decide) (by decide)
    (fun _ => by decide) (fun _ => by decide) (fun _ => by decide)

/-- Counterexample to C4 as stated: a subject of five semicolons passes
validation (its raw trimmed length is 5) although it sanitizes to the
empty string, so a request whose post-sanitization subject is empty is
not rejected. -/
theorem c4_counterexample :
    sanitize_text ";;;;;" = "" ∧
    (generate { sampleRequest with subject := ";;;;;" } ⟨0, 0, 0, 0⟩
        "2026-10-12T00:00:00").toOption.isSome = true := by
  exact ⟨rfl, rfl⟩

/-- C4 (amended): validation applies to the raw (pre-sanitization) text:
a raw subject trimming to fewer than 3 characters is rejected with the
subject validation error before any catalog work, then likewise the
setting; when both raw fields trim to at least 3 characters the request
is not rejected and assembly proceeds. -/
theorem c4_validation (req : PromptRequest) (rng : RandDraw) (now : String) :
    ((pyStrip req.subject).length < 3 →
      generate req rng now = Except.error "Subject description is required (minimum 3 characters)") ∧
    (3 ≤ (pyStrip req.subject).length → (pyStrip req.setting).length < 3 →
      generate req rng now = Except.error "Setting description is required (minimum 3 characters)") ∧
    (3 ≤ (pyStrip req.subject).length → 3 ≤ (pyStrip req.setting).length →
      generate req rng now = build_prompt req rng now) := by
  have hv : ∀ t : String, validate_input t = true ↔ 3 ≤ (pyStrip t).length := by
    intro t
    unfold validate_input
    rw [decide_eq_true_iff]
    constructor
    · exact fun h => h.2
    · intro h
      refine ⟨?_, h⟩
      intro ht
      rw [ht, show pyStrip "" = "" from rfl] at h
      simp at h
  refine ⟨?_, ?_, ?_⟩
  · intro h
    have hv1 : ¬ validate_input req.subject = true := by rw [hv]; omega
    unfold generate
    rw [if_pos hv1]
  · intro h1 h2
    have hv1 : validate_input req.subject = true := (hv _).mpr h1
    have hv2 : ¬ validate_input req.setting = true := by rw [hv]; omega
    unfold generate
    rw [if_neg (not_not_intro hv1), if_pos hv2]
  · intro h1 h2
    have hv1 : validate_input req.subject = true := (hv _).mpr h1
    have hv2 : validate_input req.setting = true := (hv _).mpr h2
    unfold generate
    rw [if_neg (not_not_intro hv1), if_neg (not_not_intro hv2)]

/-- Witness for C4 (amended): a short raw subject is rejected. -/
theorem c4_witness :
    generate { sampleRequest with subject := " hi " } ⟨0, 0, 0, 0⟩ "2026-10-12T00:00:00" =
      Except.error "Subject description is required (minimum 3 characters)" :=
  (c4_validation { sampleRequest with subject := " hi " } ⟨0, 0, 0, 0⟩ "2026-10-12T00:00:00").1
    (by decide)


/-- Counterexample to C5 as stated: two requests differing only in their
subject yield identical metadata — the metadata mapping has no "subject"
(nor "setting"/"negative") key, so it does not capture every resolved
input. -/
theorem c5_counterexample :
    ((build_prompt sampleRequest ⟨0, 0, 0, 0⟩ "2026-10-12T00:00:00").toOption.map
        (fun r => r.metadata) =
      (build_prompt { sampleRequest with subject := "a completely different subject" }
          ⟨0, 0, 0, 0⟩ "2026-10-12T00:00:00").toOption.map (fun r => r.metadata)) ∧
    sampleRequest.subject ≠ "a completely different subject" ∧
    "subject" ∉ Metadata.keys := by
  refine ⟨by decide, by decide, by decide⟩

/-- C5 (amended): whenever assembly succeeds, the metadata captures every
resolved selection — with the post-randomization lighting, mood, color and
lens when `randomize` is set, the resolved aspect-ratio value — plus the
timestamp and the version marker; the free-text subject, setting and
negative fields are not part of the metadata. -/
theorem c5_metadata (req : PromptRequest) (rng : RandDraw) (now : String) (ratio : String)
    (hra : List.lookup req.aspect_ratio ASPECT_RATIOS = some ratio)
    (hl : (List.lookup (if req.randomize then listChoice (LIGHTING.map Prod.fst) rng.lighting_idx else req.lighting) LIGHTING).isSome)
    (hc : (List.lookup req.composition COMPOSITION).isSome)
    (hq : (List.lookup req.quality QUALITY).isSome)
    (hmo : (List.lookup (if req.randomize then listChoice (MOOD.map Prod.fst) rng.mood_idx else req.mood) MOOD).isSome)
    (hco : (List.lookup (if req.randomize then listChoice (COLOR.map Prod.fst) rng.color_idx else req.color) COLOR).isSome) :
    (build_prompt req rng now).map (fun r => r.metadata) = Except.ok {
      timestamp := now,
      version := VERSION,
      mode := req.mode,
      camera_body := req.camera_body,
      lens := if req.randomize then listChoice (LENS_LIBRARY.map Prod.fst) rng.lens_idx else req.lens,
      iso := req.iso,
      lighting := if req.randomize then listChoice (LIGHTING.map Prod.fst) rng.lighting_idx else req.lighting,
      composition := req.composition,
      texture_primary := req.texture_primary,
      texture_secondary := req.texture_secondary,
      texture_mode := req.texture_mode,
      quality := req.quality,
      mood := if req.randomize then listChoice (MOOD.map Prod.fst) rng.mood_idx else req.mood,
      color := if req.randomize then listChoice (COLOR.map Prod.fst) rng.color_idx else req.color,
      aspect_ratio := ratio,
      realism_mode := req.realism_mode,
      randomized := req.randomize } := by
  obtain ⟨ld, hld⟩ := Option.isSome_iff_exists.mp hl
  obtain ⟨cd, hcd⟩ := Option.isSome_iff_exists.mp hc
  obtain ⟨qd, hqd⟩ := Option.isSome_iff_exists.mp hq
  obtain ⟨md, hmd⟩ := Option.isSome_iff_exists.mp hmo
  obtain ⟨cod, hcod⟩ := Option.isSome_iff_exists.mp hco
  simp only [build_prompt, dictGet, hra, hld, hcd, hqd, hmd, hcod, Except.map]

/-- Witness for C5 at a concrete randomized request: the metadata reports
the randomly drawn lighting, mood, color and lens, not the passed ones. -/
theorem c5_witness :
    (build_prompt { sampleRequest with randomize := true } ⟨3, 1, 2, 5⟩
        "2026-10-12T00:00:00").map (fun r => r.metadata) =
      Except.ok {
        timestamp := "2026-10-12T00:00:00",
        version := "4.1.0",
        mode := "Portrait",
        camera_body := "Canon EOS R5 Mark II",
        lens := "35mm f/2",
        iso := 100,
        lighting := "Dramatic Side",
        composition := "Rule of Thirds",
        texture_primary := "skin_realistic",
        texture_secondary := some "fabric_detailed",
        texture_mode := "primary_secondary",
        quality := "Photorealistic 8K",
        mood := "Confident Powerful",
        color := "Cool Cinematic",
        aspect_ratio := "2:3",
        realism_mode := "strict_no_cgi",
        randomized := true } := by
  have h := c5_metadata { sampleRequest with randomize := true } ⟨3, 1, 2, 5⟩
    "2026-10-12T00:00:00" "2:3" (by decide) (by decide) (by decide) (by decide)
    (by decide) (by decide)
  rw [h]
  rfl
